import Mathlib

/-!
Verification of the flight-tracker crawler (src/crawler.py) against its
natural-language specification.

The Python source is shallowly embedded below.  Machine floats are modelled
as rationals (the source only performs field arithmetic and comparisons on
them along the verified paths); the transcendental library functions
(math.sin, math.cos, math.atan2, math.sqrt) are abstracted as an explicit
`TrigModel` parameter, since none of the verified properties depend on their
values; Python's `random.*` draws are passed in explicitly as oracle
structures (`TickRand`, `InitRand`, `ChurnRand`, `GenRand`); code that would
raise a Python exception is modelled by returning `none`.
-/

namespace Crawler

/-- Module constant BBOX, src/crawler.py line 21: (lonmin, latmin, lonmax, latmax). -/
def BBOX : ℚ × ℚ × ℚ × ℚ := (-5, 42, 15, 55)

/-- Module constant POLL_S, line 22. -/
def POLL_S : ℕ := 5

/-- Module constant WINDOW, line 23: retention horizon in seconds. -/
def WINDOW : ℤ := 1800

/-- Abstraction of the transcendental real functions used by the source.
`sinDeg`/`cosDeg` stand for sin/cos of `radians(x)` (lines 256-260),
`atan2deg x y` for `degrees(atan2(x, y))` (line 43), `sinRaw` for `math.sin`
applied to a rational argument (lines 317-318), `sinPiTimes x` for
`math.sin(x * math.pi)` (line 155), and `sqrtQ` for `math.sqrt`
(lines 112, 122).  All verified claims are independent of their values. -/
structure TrigModel where
  sinDeg : ℚ → ℚ
  cosDeg : ℚ → ℚ
  atan2deg : ℚ → ℚ → ℚ
  sinRaw : ℚ → ℚ
  sinPiTimes : ℚ → ℚ
  sqrtQ : ℚ → ℚ

/-- Python float modulo 360 with a nonnegative result, as `x % 360` behaves
for the headings in lines 43 and 263. -/
def mod360 (x : ℚ) : ℚ := x - 360 * (Int.floor (x / 360) : ℚ)

/-- Quadratic bezier interpolation, lines 32-36. -/
def bezier_point (p0 p1 p2 : ℚ × ℚ) (t : ℚ) : ℚ × ℚ :=
  ((1 - t) ^ 2 * p0.1 + 2 * (1 - t) * t * p1.1 + t ^ 2 * p2.1,
   (1 - t) ^ 2 * p0.2 + 2 * (1 - t) * t * p1.2 + t ^ 2 * p2.2)

/-- Heading from point 1 to point 2, lines 39-43. -/
def calculate_heading (T : TrigModel) (lat1 lon1 lat2 lon2 : ℚ) : ℚ :=
  mod360 (T.atan2deg (lon2 - lon1) (lat2 - lat1))

/-- An airport entry of the hard-coded table at lines 51-62. -/
structure Airport where
  name : String
  lat : ℚ
  lon : ℚ
deriving DecidableEq

instance : Inhabited Airport := ⟨⟨"", 0, 0⟩⟩

/-- The hard-coded airport table, lines 51-62. -/
def airports : List Airport :=
  [⟨"LHR", 51.4700, -0.4543⟩,
   ⟨"CDG", 49.0097, 2.5479⟩,
   ⟨"AMS", 52.3105, 4.7683⟩,
   ⟨"FRA", 50.0379, 8.5622⟩,
   ⟨"MAD", 40.4983, -3.5676⟩,
   ⟨"FCO", 41.8045, 12.2508⟩,
   ⟨"BCN", 41.2974, 2.0833⟩,
   ⟨"MUC", 48.3537, 11.7860⟩,
   ⟨"BRU", 50.9010, 4.4856⟩,
   ⟨"ZRH", 47.4647, 8.5492⟩]

/-- Airline code table, lines 86 and 374. -/
def airline_codes : List String :=
  ["BA", "AF", "LH", "IB", "AZ", "KL", "FR", "EZY", "RYR", "VLG"]

/-- Direct routes between all ordered airport pairs (i < j), lines 68-73. -/
def routes : List (Airport × Airport) :=
  ((List.range airports.length).map fun i =>
    (((List.range airports.length).filter fun j => i < j).map fun j =>
      (airports.getD i default, airports.getD j default))).flatten

/-- Flight phase, line 134 (only the values actually assigned by the source). -/
inductive Phase
  | cruise
  | approach
deriving DecidableEq

/-- The approach (loiter) pattern dict created at lines 199-206 / 211-218. -/
structure ApproachPattern where
  loops : ℕ
  current_loop : ℕ
  center : ℚ × ℚ
  radius : ℚ
  start_angle : ℚ
  progress : ℚ
deriving DecidableEq

/-- One entry of the `active_flights` registry, lines 162-179. -/
structure Flight where
  icao : String
  callsign : String
  lat : ℚ
  lon : ℚ
  track : ℚ
  alt : ℚ
  speed : ℚ
  origin : Airport
  destination : Airport
  progress : ℚ
  flight_duration : ℚ
  direction : ℤ
  last_update : ℚ
  control_point : ℚ × ℚ
  phase : Phase
  approach_pattern : Option ApproachPattern
deriving DecidableEq

/-- Wire-format flight record appended to a frame, lines 353-361. -/
structure FlightRecord where
  icao : String
  callsign : String
  lat : ℚ
  lon : ℚ
  track : ℚ
  alt : ℚ
  speed : ℚ
deriving DecidableEq

/-- Projection of a registry entry to the wire format, lines 353-361. -/
def Flight.toRecord (f : Flight) : FlightRecord :=
  { icao := f.icao, callsign := f.callsign, lat := f.lat, lon := f.lon,
    track := f.track, alt := f.alt, speed := f.speed }

/-- Random draws consumed by one per-flight tick update: `random.randint(1, 3)`
(lines 200/212), `random.uniform(0.05, 0.1)` (203/215), `random.uniform(0, 360)`
(204/216) and the two position jitters `random.uniform(-0.01, 0.01)`
(lines 317-318). -/
structure TickRand where
  loops : ℕ
  radius : ℚ
  start_angle : ℚ
  jitterLat : ℚ
  jitterLon : ℚ

/-- Progress integration step, lines 184-188:
`progress += (time_delta / flight_duration) * direction * 1.5`. -/
def progressStep (timestamp : ℚ) (f : Flight) : Flight :=
  let time_delta := timestamp - f.last_update
  let progress_delta := time_delta / f.flight_duration * (f.direction : ℚ) * (3 / 2)
  { f with progress := f.progress + progress_delta }

/-- Approach-entry checks, lines 190-218.  Note that the second branch tests
`progress < (1 - takeoff_threshold)`, i.e. `progress < 0.85`, exactly as the
source does at line 207. -/
def approachEntry (r : TickRand) (f : Flight) : Flight :=
  if f.direction = 1 ∧ f.progress > 85 / 100 ∧ f.phase = Phase.cruise then
    { f with phase := Phase.approach,
             approach_pattern := some
               { loops := r.loops, current_loop := 0,
                 center := (f.destination.lat, f.destination.lon),
                 radius := r.radius, start_angle := r.start_angle, progress := 0 } }
  else if f.direction = -1 ∧ f.progress < 1 - 15 / 100 ∧ f.phase = Phase.cruise then
    { f with phase := Phase.approach,
             approach_pattern := some
               { loops := r.loops, current_loop := 0,
                 center := (f.origin.lat, f.origin.lon),
                 radius := r.radius, start_angle := r.start_angle, progress := 0 } }
  else f

/-- Position, track, altitude and speed while loitering, lines 248-274. -/
def approachPosition (T : TrigModel) (pat : ApproachPattern) (f : Flight) : Flight :=
  let angle := pat.start_angle + (pat.progress + (pat.current_loop : ℚ)) * 360
  let lat := pat.center.1 + T.sinDeg angle * pat.radius
  let lon := pat.center.2 + T.cosDeg angle * pat.radius
  let track := mod360 (angle + 90)
  let alt_factor := if f.direction = 1 then 1 - pat.progress else pat.progress
  { f with lat := lat, lon := lon, track := track,
           alt := 3000 * alt_factor, speed := 150 * alt_factor }

/-- Approach-phase advance, lines 221-274.  A flight in approach phase with no
pattern would raise in Python (line 225 dereferences `None`); that is the
`none` result.  The exit branch (lines 231-245) reverses direction, resets
progress to the boundary, returns to cruise and clears the pattern. -/
def approachAdvance (T : TrigModel) (time_delta : ℚ) (f : Flight) : Option Flight :=
  match f.approach_pattern with
  | none => none
  | some pat0 =>
    let pattern_speed := 1 / 100 * time_delta
    let pat1 : ApproachPattern := { pat0 with progress := pat0.progress + pattern_speed }
    if pat1.progress ≥ 1 then
      let pat2 : ApproachPattern := { pat1 with current_loop := pat1.current_loop + 1, progress := 0 }
      if pat2.current_loop ≥ pat2.loops then
        if f.direction = 1 then
          some { f with progress := 1, direction := -1, phase := Phase.cruise,
                        approach_pattern := none }
        else
          some { f with progress := 0, direction := 1, phase := Phase.cruise,
                        approach_pattern := none }
      else
        some (approachPosition T pat2 { f with approach_pattern := some pat2 })
    else
      some (approachPosition T pat1 { f with approach_pattern := some pat1 })

/-- Altitude/speed profile factor evaluated in the cruise branch,
lines 320-342 (the source computes it inline as `alt_profile`). -/
def altProfile (direction : ℤ) (progress : ℚ) : ℚ :=
  if direction = 1 then
    if progress < 2 / 10 then progress * 5
    else if progress > 8 / 10 then (1 - progress) * 5
    else 1
  else
    if progress > 8 / 10 then (progress - 8 / 10) * 5
    else if progress < 2 / 10 then progress * 5
    else 1

/-- Cruise branch of the tick, lines 275-347: boundary clamping (277-287),
endpoint swap by direction (289-295), bezier position and finite-difference
track (297-314), position jitter (316-318) and the altitude/speed profile
(320-347). -/
def cruiseMove (T : TrigModel) (r : TickRand) (timestamp : ℚ) (f : Flight) : Flight :=
  let f :=
    if f.progress ≥ 1 then { f with progress := 1, phase := Phase.cruise, direction := -1 }
    else if f.progress ≤ 0 then { f with progress := 0, phase := Phase.cruise, direction := 1 }
    else f
  let op := if f.direction = 1 then (f.origin, f.destination) else (f.destination, f.origin)
  let p0 := (op.1.lat, op.1.lon)
  let p1 := f.control_point
  let p2 := (op.2.lat, op.2.lon)
  let pos := bezier_point p0 p1 p2 f.progress
  let delta : ℚ := 1 / 100
  let prev_t := max 0 (f.progress - delta)
  let next_t := min 1 (f.progress + delta)
  let prevP := bezier_point p0 p1 p2 prev_t
  let nextP := bezier_point p0 p1 p2 next_t
  let track := calculate_heading T prevP.1 prevP.2 nextP.1 nextP.2
  let lat := pos.1 + r.jitterLat * T.sinRaw (timestamp / 1000)
  let lon := pos.2 + r.jitterLon * T.sinRaw (timestamp / 1200)
  let alt_profile := altProfile f.direction f.progress
  { f with lat := lat, lon := lon, track := track,
           alt := 10000 * alt_profile, speed := 250 * alt_profile }

/-- One per-flight tick of the update loop, lines 182-350: progress
integration, approach-entry checks, then either the approach branch or the
cruise branch, and finally `last_update := timestamp` (line 350). -/
def updateFlight (T : TrigModel) (r : TickRand) (timestamp : ℚ) (f : Flight) : Option Flight :=
  let time_delta := timestamp - f.last_update
  let f1 := approachEntry r (progressStep timestamp f)
  if f1.phase = Phase.approach then
    (approachAdvance T time_delta f1).map fun f2 => { f2 with last_update := timestamp }
  else
    some { cruiseMove T r timestamp f1 with last_update := timestamp }

/-- Hex formatting of a 24-bit icao address, `format(n, '06x')`, lines 94/379. -/
def icaoHex (n : ℕ) : String :=
  let s := Nat.toDigits 16 (n % 16777216)
  String.mk (List.replicate (6 - s.length) '0' ++ s)

/-- Random draws consumed when a flight is created (lines 82-131 and 383-416):
a route choice (line 83/371), an airline-code choice and flight number
(87/375), an icao draw (94), the initial progress `random.random()` (98, zero
for churn spawns), the control-point offset fraction `random.uniform(0.1,0.3)`
(115/397) and the curve-side coin `random.random() < 0.5` (116/398). -/
structure InitRand where
  routeIdx : ℕ
  airlineIdx : ℕ
  flightNum : ℕ
  icaoNum : ℕ
  init_progress : ℚ
  offset_frac : ℚ
  curve_side : Bool

/-- Callsign built at lines 86-87 / 374-375 from the drawn airline code and
flight number (`randint(100, 9999)` is represented by reducing the drawn
natural into that range). -/
def flightIdOf (r : InitRand) : String :=
  airline_codes.getD (r.airlineIdx % airline_codes.length) "" ++
    toString (100 + r.flightNum % 9900)

/-- Control point for a curved flight path, lines 100-131 (duplicated
verbatim at lines 383-413 for churn spawns): midpoint plus a perpendicular
offset of 10-30 percent of the path length, with randomized side. -/
def controlPointFor (T : TrigModel) (r : InitRand) (origin destination : Airport) : ℚ × ℚ :=
  let mid_lat := (origin.lat + destination.lat) / 2
  let mid_lon := (origin.lon + destination.lon) / 2
  let dx := destination.lon - origin.lon
  let dy := destination.lat - origin.lat
  let path_length := T.sqrtQ (dx ^ 2 + dy ^ 2)
  let offset_scale0 := r.offset_frac * path_length
  let offset_scale := if r.curve_side then -offset_scale0 else offset_scale0
  let perp_x := -dy
  let perp_y := dx
  let perp_length := T.sqrtQ (perp_x ^ 2 + perp_y ^ 2)
  let pxy :=
    if perp_length > 0 then (perp_x / perp_length * offset_scale, perp_y / perp_length * offset_scale)
    else (perp_x, perp_y)
  (mid_lat + pxy.2, mid_lon + pxy.1)

/-- Creation of one initial flight, lines 82-179. -/
def initFlight (T : TrigModel) (r : InitRand) (timestamp : ℚ) : Flight :=
  let rt := routes.getD (r.routeIdx % routes.length) default
  let origin := rt.1
  let destination := rt.2
  let icao := icaoHex r.icaoNum
  let flight_duration : ℚ := 15 * 60
  let flight_progress := r.init_progress
  let cp := controlPointFor T r origin destination
  let p0 := (origin.lat, origin.lon)
  let p1 := cp
  let p2 := (destination.lat, destination.lon)
  let pos := bezier_point p0 p1 p2 flight_progress
  let delta : ℚ := 1 / 100
  let prev_t := max 0 (flight_progress - delta)
  let next_t := min 1 (flight_progress + delta)
  let prevP := bezier_point p0 p1 p2 prev_t
  let nextP := bezier_point p0 p1 p2 next_t
  let track := calculate_heading T prevP.1 prevP.2 nextP.1 nextP.2
  let alt_profile := T.sinPiTimes flight_progress
  { icao := icao, callsign := flightIdOf r, lat := pos.1, lon := pos.2, track := track,
    alt := 10000 * alt_profile, speed := 250 * alt_profile,
    origin := origin, destination := destination, progress := flight_progress,
    flight_duration := flight_duration, direction := 1, last_update := timestamp,
    control_point := cp, phase := Phase.cruise, approach_pattern := none }

/-- Assignment `active_flights[icao] = ...` with Python dict semantics: an
existing key is overwritten in place, a new key is appended. -/
def insertFlight (reg : List Flight) (f : Flight) : List Flight :=
  if reg.any fun g => g.icao = f.icao then
    reg.map fun g => if g.icao = f.icao then f else g
  else reg ++ [f]

/-- Initialization loop at lines 79-179: `num_flights` iterations, each
drawing an `InitRand`; an iteration whose flight id was already drawn is
skipped (`continue`, lines 89-90).  `m` counts the remaining iterations and
`k` indexes the draw stream. -/
def initFlightsAux (T : TrigModel) (inits : ℕ → InitRand) (timestamp : ℚ) :
    ℕ → ℕ → List String → List Flight → List Flight
  | 0, _, _, reg => reg
  | m + 1, k, ids, reg =>
    let r := inits k
    let fid := flightIdOf r
    if fid ∈ ids then initFlightsAux T inits timestamp m (k + 1) ids reg
    else initFlightsAux T inits timestamp m (k + 1) (ids ++ [fid])
           (insertFlight reg (initFlight T r timestamp))

/-- Random draws consumed by the churn step, lines 363-455. -/
structure ChurnRand where
  doChurn : Bool
  removeBranch : Bool
  removeIdx : ℕ
  spawn : InitRand
  icaoDraws : List ℕ

/-- The `while True` fresh-icao loop at lines 378-381, fed by an explicit
list of draws; exhausting the draws models the loop never terminating. -/
def freshIcao (reg : List Flight) : List ℕ → Option String
  | [] => none
  | n :: rest =>
    let icao := icaoHex n
    if reg.any fun g => g.icao = icao then freshIcao reg rest else some icao

/-- Churn spawn at lines 370-455: a new flight starting at its origin with
progress 0, altitude 100 and speed 50, whose record is also appended to the
current frame (lines 446-455). -/
def churnSpawn (T : TrigModel) (c : ChurnRand) (timestamp : ℚ) (icao : String) : Flight :=
  let rt := routes.getD (c.spawn.routeIdx % routes.length) default
  let origin := rt.1
  let destination := rt.2
  let cp := controlPointFor T c.spawn origin destination
  let track := calculate_heading T origin.lat origin.lon cp.1 cp.2
  { icao := icao, callsign := flightIdOf c.spawn, lat := origin.lat, lon := origin.lon,
    track := track, alt := 100, speed := 50,
    origin := origin, destination := destination, control_point := cp, progress := 0,
    flight_duration := 15 * 60, direction := 1, last_update := timestamp,
    phase := Phase.cruise, approach_pattern := none }

/-- Churn step, lines 363-455: with the drawn 5-percent coin, either remove a
random flight (only when more than 30 are active, lines 365-368) or spawn a
new one (lines 369-455, returning its frame record as well). -/
def churnStep (T : TrigModel) (c : ChurnRand) (timestamp : ℚ) (reg : List Flight) :
    Option (List Flight × Option FlightRecord) :=
  if c.doChurn then
    if reg.length > 30 ∧ c.removeBranch then
      some (reg.eraseIdx (c.removeIdx % reg.length), none)
    else
      match freshIcao reg c.icaoDraws with
      | none => none
      | some icao =>
        let sp := churnSpawn T c timestamp icao
        some (insertFlight reg sp, some sp.toRecord)
  else some (reg, none)

/-- Random draws consumed by one whole `generate_demo_flights` call:
`randint(-5, 5)` at line 65, one `InitRand` per initialization iteration, one
`TickRand` per updated flight, and the churn draws. -/
structure GenRand where
  numDelta : ℤ
  inits : ℕ → InitRand
  ticks : ℕ → TickRand
  churn : ChurnRand

/-- Update loop over the registry, lines 182-361, threading one `TickRand`
per flight; a per-flight Python exception aborts the whole call (it would
propagate out of `generate_demo_flights`). -/
def updateAll (T : TrigModel) (ticks : ℕ → TickRand) (timestamp : ℚ) :
    ℕ → List Flight → Option (List Flight)
  | _, [] => some []
  | i, f :: fs =>
    match updateFlight T (ticks i) timestamp f with
    | none => none
    | some f' =>
      match updateAll T ticks timestamp (i + 1) fs with
      | none => none
      | some fs' => some (f' :: fs')

/-- The synthetic generator `generate_demo_flights(timestamp)`, lines 46-457,
returning the produced frame and the updated registry.  The module-level
`BBOX` global that is in scope in the source body is passed explicitly as
`bbox`; exactly as in the source, the body never reads it. -/
def generate_demo_flights (bbox : ℚ × ℚ × ℚ × ℚ) (T : TrigModel) (g : GenRand)
    (timestamp : ℚ) (active0 : List Flight) : Option (List FlightRecord × List Flight) :=
  let num_flights := (45 + g.numDelta).toNat
  let reg0 := if active0.isEmpty then initFlightsAux T g.inits timestamp num_flights 0 [] []
              else active0
  match updateAll T g.ticks timestamp 0 reg0 with
  | none => none
  | some reg1 =>
    let frame1 := reg1.map Flight.toRecord
    match churnStep T g.churn timestamp reg1 with
    | none => none
    | some (reg2, extra) =>
      some (frame1 ++ (match extra with | some rec => [rec] | none => []), reg2)

/-- Time-bucketed window of frames, line 26 (`frames` maps timestamps to
flight lists; list order is Python dict insertion order). -/
abbrev Window : Type := List (ℤ × List FlightRecord)

/-- The prune step, lines 460-465.  The source reads `now` from the wall
clock (`int(time.time())`); it is passed explicitly here. -/
def prune (now : ℤ) (w : Window) : Window :=
  w.filter fun p => decide (¬ p.1 < now - WINDOW)

/-- Snapshot payload frame list built by `ws_handler`, line 575:
`sorted(frames.items())` ascending by timestamp. -/
def ws_snapshot (w : Window) : Window :=
  w.mergeSort fun a b => decide (a.1 ≤ b.1)

/-- One row of the OpenSky states response, as consumed at lines 513-531
(only the columns the loop reads).  Absent values (`None`) are `none`. -/
structure ApiRow where
  icao24 : String
  callsign : Option String
  latitude : Option ℚ
  longitude : Option ℚ
  track : Option ℚ
  baro_altitude : Option ℚ
  velocity : Option ℚ
deriving DecidableEq

/-- Per-row processing of the live feed, lines 513-531: rows with a `None`
latitude or longitude are skipped (516-517); a falsy callsign falls back to
the icao (520); falsy track / baro_altitude / velocity are stored as 0
(528-530). -/
def processRow (r : ApiRow) : Option FlightRecord :=
  if r.latitude = none ∨ r.longitude = none then none
  else
    let callsign :=
      match r.callsign with
      | some c => if c = "" then r.icao24 else c.trim
      | none => r.icao24
    some { icao := r.icao24, callsign := callsign,
           lat := r.latitude.getD 0, lon := r.longitude.getD 0,
           track := match r.track with | some t => if t = 0 then 0 else t | none => 0,
           alt := match r.baro_altitude with | some a => if a = 0 then 0 else a | none => 0,
           speed := match r.velocity with | some v => if v = 0 then 0 else v | none => 0 }

/-- Processing of a whole states list into a frame bucket, lines 510-531. -/
def processStates (rows : List ApiRow) : List FlightRecord :=
  rows.filterMap processRow

/-- Mutable state of the `poll_opensky` loop, lines 468-470. -/
structure PollState where
  api_failure_count : ℕ
  demo_mode : Bool
deriving DecidableEq

/-- Outcome of one poll attempt against the external feed: an HTTP response
with a status and parsed states list, or a raised network error (the
`except` path at line 553). -/
inductive PollEvent
  | resp (status : ℕ) (states : List ApiRow)
  | netError
deriving DecidableEq

/-- What one tick writes into `frames[now]`: a live frame (line 510-531) or a
synthetic frame from the generator (lines 543-548). -/
inductive FrameWrite
  | live (recs : List FlightRecord)
  | synthetic
deriving DecidableEq

/-- One iteration of the `poll_opensky` loop body, lines 472-562: in demo
mode the tick only generates synthetic data; otherwise a 429 response
increments the failure counter and switches to demo mode at 3 (487-491,
generating synthetic data in that same tick, 542-548), a 200 response resets
the counter and writes the processed states when nonempty (493-536), any
other status only logs (539-540), and a raised exception increments the
counter and switches to demo mode at 3 without writing a frame (553-560). -/
def pollTick (s : PollState) (e : PollEvent) : PollState × Option FrameWrite :=
  if s.demo_mode then (s, some FrameWrite.synthetic)
  else
    match e with
    | PollEvent.netError =>
      let c := s.api_failure_count + 1
      ({ api_failure_count := c, demo_mode := decide (3 ≤ c) }, none)
    | PollEvent.resp status states =>
      let c1 := if status = 429 then s.api_failure_count + 1 else s.api_failure_count
      let demo1 := status = 429 ∧ 3 ≤ c1
      let c2 := if status = 200 then 0 else c1
      let live_write : Option FrameWrite :=
        if status = 200 ∧ states ≠ [] then some (FrameWrite.live (processStates states))
        else none
      if demo1 then ({ api_failure_count := c2, demo_mode := true }, some FrameWrite.synthetic)
      else ({ api_failure_count := c2, demo_mode := false }, live_write)

/-- Iterated poll loop: the final state and the per-tick frame writes. -/
def pollRun (s : PollState) : List PollEvent → PollState × List (Option FrameWrite)
  | [] => (s, [])
  | e :: es =>
    let step := pollTick s e
    let rest := pollRun step.1 es
    (rest.1, step.2 :: rest.2)

/-! Concrete instantiations used to evaluate the model on explicit inputs. -/

/-- Trig model sending every transcendental call to 0; the verified claims
are independent of these values. -/
def trigZero : TrigModel :=
  { sinDeg := fun _ => 0, cosDeg := fun _ => 0, atan2deg := fun _ _ => 0,
    sinRaw := fun _ => 0, sinPiTimes := fun _ => 0, sqrtQ := fun _ => 0 }

/-- Concrete tick draws: 3 loiter loops, radius 0.07, start angle 0, no
position jitter. -/
def tickRand3 : TickRand :=
  { loops := 3, radius := 7 / 100, start_angle := 0, jitterLat := 0, jitterLon := 0 }

/-- Concrete registry entry on the MAD-FCO route, direction +1, phase cruise,
progress 0.8, spawned at time 0. -/
def flightBase : Flight :=
  { icao := "abc123", callsign := "BA1234", lat := 0, lon := 0, track := 0, alt := 0, speed := 0,
    origin := ⟨"MAD", 40.4983, -3.5676⟩, destination := ⟨"FCO", 41.8045, 12.2508⟩,
    progress := 4 / 5, flight_duration := 900, direction := 1, last_update := 0,
    control_point := (41, 4), phase := Phase.cruise, approach_pattern := none }

/-- Iterated flight updates at an explicit list of tick timestamps (the
poll loop calls the generator with the current wall-clock time, so
consecutive tick timestamps are separated by at least `POLL_S` but can be
separated by much more, e.g. after slow or failing feed calls). -/
def runTicksAt (T : TrigModel) (r : TickRand) : Flight → List ℚ → Option Flight
  | f, [] => some f
  | f, ts :: rest => (updateFlight T r ts f).bind fun f2 => runTicksAt T r f2 rest

/-- Cruise flight whose randomly drawn initial progress was 0.85. -/
def fStart : Flight := { flightBase with progress := 17 / 20 }

/-- Scenario A input: a flight at its origin (progress 0), direction +1,
duration 900 s, last updated at time 0. -/
def fScenarioA : Flight := { flightBase with progress := 0 }

/-- Result of advancing `fScenarioA` by a single tick with dt = 450 s. -/
def fScenarioA' : Flight := (updateFlight trigZero tickRand3 450 fScenarioA).getD fScenarioA

/-- Return-leg flight at mid-route: direction -1, progress 0.5, cruise. -/
def fReturnHalf : Flight := { flightBase with progress := 1 / 2, direction := -1 }

/-- Loiter pattern with a single loop, half complete. -/
def patExit : ApproachPattern :=
  { loops := 1, current_loop := 0, center := (41.8045, 12.2508),
    radius := 7 / 100, start_angle := 0, progress := 1 / 2 }

/-- Approach flight about to complete its single loiter loop: pattern
`patExit`, advanced with dt = 60 s. -/
def fApproachExit : Flight :=
  { flightBase with progress := 9 / 10, phase := Phase.approach,
                    approach_pattern := some patExit }

/-- Result of the exit tick for `fApproachExit`. -/
def fApproachExit' : Flight := (updateFlight trigZero tickRand3 60 fApproachExit).getD fApproachExit

/-- Cruise flight at 17 percent progress (inside the 15-85 band the spec
claims holds at cruise altitude). -/
def fRamp17 : Flight := { flightBase with progress := 17 / 100 }

/-- Cruise flight at mid-route, progress 0.5. -/
def fMid : Flight := { flightBase with progress := 1 / 2 }

/-- Result of one dt = 0 tick from `fMid`. -/
def fMid' : Flight := (updateFlight trigZero tickRand3 0 fMid).getD fMid

/-- Cruise flight at progress 0.3, for the clamping witness. -/
def fCruise30 : Flight := { flightBase with progress := 3 / 10 }

/-- Result of one dt = 5 tick from `fCruise30`. -/
def fCruise30' : Flight := (updateFlight trigZero tickRand3 5 fCruise30).getD fCruise30

/-- Live API row with valid coordinates but missing track, zero barometric
altitude and present velocity. -/
def rowPartial : ApiRow :=
  { icao24 := "4ca1d2", callsign := none, latitude := some 50, longitude := some 4,
    track := none, baro_altitude := some 0, velocity := some 220 }

/-- Initialization draws selecting route index 30 (MAD to FCO) with initial
progress 0. -/
def initRandMAD : InitRand :=
  { routeIdx := 30, airlineIdx := 0, flightNum := 0, icaoNum := 0,
    init_progress := 0, offset_frac := 1 / 10, curve_side := false }

/-- Generator draws: 40 flights requested, every initialization iteration
drawing the same id (so exactly one flight is created), no churn. -/
def genRandMAD : GenRand :=
  { numDelta := -5, inits := fun _ => initRandMAD, ticks := fun _ => tickRand3,
    churn := { doChurn := false, removeBranch := false, removeIdx := 0,
               spawn := initRandMAD, icaoDraws := [] } }

/-- Pattern state after a completed loiter cycle, lines 228-229. -/
def patAfterLoop (pat : ApproachPattern) : ApproachPattern :=
  { pat with current_loop := pat.current_loop + 1, progress := 0 }

/-- Pattern state after an in-progress loiter advance, lines 224-225. -/
def patAfterStep (dt : ℚ) (pat : ApproachPattern) : ApproachPattern :=
  { pat with progress := pat.progress + 1 / 100 * dt }

/-! Helper lemmas about the tick decomposition. -/

/-- Discrimination of the two phase constructors, for rewriting. -/
theorem approach_ne_cruise : (Phase.approach = Phase.cruise) = False := by simp

/-- Discrimination of the two phase constructors, reversed. -/
theorem cruise_ne_approach : (Phase.cruise = Phase.approach) = False := by simp

/-- Record updates in `approachPosition` leave the phase unchanged. -/
theorem approachPosition_phase (T : TrigModel) (pat : ApproachPattern) (f : Flight) :
    (approachPosition T pat f).phase = f.phase := rfl

/-- Record updates in `approachPosition` leave the pattern unchanged. -/
theorem approachPosition_pattern (T : TrigModel) (pat : ApproachPattern) (f : Flight) :
    (approachPosition T pat f).approach_pattern = f.approach_pattern := rfl

/-- Record updates in `approachPosition` leave the progress unchanged. -/
theorem approachPosition_progress (T : TrigModel) (pat : ApproachPattern) (f : Flight) :
    (approachPosition T pat f).progress = f.progress := rfl

/-- Record updates in `approachPosition` leave the direction unchanged. -/
theorem approachPosition_direction (T : TrigModel) (pat : ApproachPattern) (f : Flight) :
    (approachPosition T pat f).direction = f.direction := rfl

/-- Progress integration leaves the phase unchanged. -/
theorem progressStep_phase (ts : ℚ) (f : Flight) : (progressStep ts f).phase = f.phase := rfl

/-- Progress integration leaves the direction unchanged. -/
theorem progressStep_direction (ts : ℚ) (f : Flight) :
    (progressStep ts f).direction = f.direction := rfl

/-- Progress integration leaves the approach pattern unchanged. -/
theorem progressStep_pattern (ts : ℚ) (f : Flight) :
    (progressStep ts f).approach_pattern = f.approach_pattern := rfl

/-- The approach-entry checks do nothing to a flight already in approach
phase (both conditions require phase cruise, lines 195 and 207). -/
theorem approachEntry_of_approach (r : TickRand) (f : Flight)
    (h : f.phase = Phase.approach) : approachEntry r f = f := by
  unfold approachEntry
  rw [if_neg, if_neg] <;> simp [h]

/-- Case analysis of one approach-phase advance (lines 221-274): either the
loiter cycle completes and the pattern's loop budget is exhausted (exit,
lines 231-245), or the cycle completes with loops remaining (lines 227-229),
or the cycle is still in progress. -/
theorem approachAdvance_cases (T : TrigModel) (dt : ℚ) (g f2 : Flight)
    (pat : ApproachPattern) (hpat : g.approach_pattern = some pat)
    (h : approachAdvance T dt g = some f2) :
    (1 ≤ pat.progress + 1 / 100 * dt ∧ pat.loops ≤ pat.current_loop + 1 ∧
       f2 = (if g.direction = 1
             then { g with progress := 1, direction := -1, phase := Phase.cruise,
                           approach_pattern := none }
             else { g with progress := 0, direction := 1, phase := Phase.cruise,
                           approach_pattern := none }))
  ∨ (1 ≤ pat.progress + 1 / 100 * dt ∧ ¬ pat.loops ≤ pat.current_loop + 1 ∧
       f2 = approachPosition T (patAfterLoop pat)
              { g with approach_pattern := some (patAfterLoop pat) })
  ∨ (¬ 1 ≤ pat.progress + 1 / 100 * dt ∧
       f2 = approachPosition T (patAfterStep dt pat)
              { g with approach_pattern := some (patAfterStep dt pat) }) := by
  unfold approachAdvance at h
  rw [hpat] at h
  simp only [ge_iff_le] at h
  by_cases h1 : (1 : ℚ) ≤ pat.progress + 1 / 100 * dt
  · by_cases h2 : pat.loops ≤ pat.current_loop + 1
    · rw [if_pos h1, if_pos h2] at h
      refine Or.inl ⟨h1, h2, ?_⟩
      split_ifs at h ⊢ with hd
      · exact (Option.some.inj h).symm
      · exact (Option.some.inj h).symm
    · rw [if_pos h1, if_neg h2] at h
      refine Or.inr (Or.inl ⟨h1, h2, ?_⟩)
      rw [patAfterLoop]
      exact (Option.some.inj h).symm
  · rw [if_neg h1] at h
    refine Or.inr (Or.inr ⟨h1, ?_⟩)
    rw [patAfterStep]
    exact (Option.some.inj h).symm

/-- When the phase after entry checks is cruise, the tick is the cruise
branch followed by the timestamp update (lines 275-350). -/
theorem updateFlight_cruise_eq (T : TrigModel) (r : TickRand) (ts : ℚ) (f : Flight)
    (h1 : (approachEntry r (progressStep ts f)).phase = Phase.cruise) :
    updateFlight T r ts f =
      some { cruiseMove T r ts (approachEntry r (progressStep ts f)) with last_update := ts } := by
  unfold updateFlight
  rw [if_neg]
  simp [h1]

/-- When the phase after entry checks is approach, the tick is the approach
branch followed by the timestamp update (lines 221-274, 350). -/
theorem updateFlight_approach_eq (T : TrigModel) (r : TickRand) (ts : ℚ) (f : Flight)
    (h1 : (approachEntry r (progressStep ts f)).phase = Phase.approach) :
    updateFlight T r ts f =
      (approachAdvance T (ts - f.last_update) (approachEntry r (progressStep ts f))).map
        fun f2 => { f2 with last_update := ts } := by
  unfold updateFlight
  rw [if_pos h1]

/-- Cruise-branch clamping (lines 277-287) keeps progress inside the unit
interval. -/
theorem cruiseMove_progress_bounds (T : TrigModel) (r : TickRand) (ts : ℚ) (g : Flight) :
    0 ≤ (cruiseMove T r ts g).progress ∧ (cruiseMove T r ts g).progress ≤ 1 := by
  unfold cruiseMove
  dsimp only
  split_ifs with h1 h2
  · exact ⟨by norm_num, by norm_num⟩
  · exact ⟨by norm_num, by norm_num⟩
  · exact ⟨le_of_lt (lt_of_not_le h2), le_of_lt (lt_of_not_le h1)⟩

/-- For a flight in cruise phase, the cruise branch ends in cruise phase:
either a clamp reassigns `phase := cruise` (lines 280/286) or the phase is
kept. -/
theorem cruiseMove_phase (T : TrigModel) (r : TickRand) (ts : ℚ) (g : Flight)
    (h : g.phase = Phase.cruise) : (cruiseMove T r ts g).phase = Phase.cruise := by
  unfold cruiseMove
  dsimp only
  split_ifs <;> first | rfl | exact h

/-- In the cruise branch, altitude and speed are the profile factor of the
final direction and progress times 10000 and 250 (lines 320-347). -/
theorem cruiseMove_alt_speed (T : TrigModel) (r : TickRand) (ts : ℚ) (g : Flight) :
    (cruiseMove T r ts g).alt
        = 10000 * altProfile (cruiseMove T r ts g).direction (cruiseMove T r ts g).progress
  ∧ (cruiseMove T r ts g).speed
        = 250 * altProfile (cruiseMove T r ts g).direction (cruiseMove T r ts g).progress := by
  unfold cruiseMove
  dsimp only
  split_ifs <;> exact ⟨rfl, rfl⟩

/-- The approach-entry checks do nothing when neither trigger condition
holds (lines 195 and 207). -/
theorem approachEntry_no_trigger (r : TickRand) (g : Flight)
    (h1 : ¬ (g.direction = 1 ∧ g.progress > 85 / 100 ∧ g.phase = Phase.cruise))
    (h2 : ¬ (g.direction = -1 ∧ g.progress < 1 - 15 / 100 ∧ g.phase = Phase.cruise)) :
    approachEntry r g = g := by
  unfold approachEntry
  rw [if_neg h1, if_neg h2]

/-- When neither boundary clamp fires, the cruise branch keeps progress,
phase and direction unchanged (lines 277-287). -/
theorem cruiseMove_no_clamp (T : TrigModel) (r : TickRand) (ts : ℚ) (g : Flight)
    (h1 : ¬ g.progress ≥ 1) (h2 : ¬ g.progress ≤ 0) :
    (cruiseMove T r ts g).progress = g.progress
  ∧ (cruiseMove T r ts g).phase = g.phase
  ∧ (cruiseMove T r ts g).direction = g.direction := by
  unfold cruiseMove
  dsimp only
  rw [if_neg h1, if_neg h2]
  exact ⟨rfl, rfl, rfl⟩

/-- Decomposition of an approach-phase tick into the advance result plus the
final timestamp write (line 350). -/
theorem updateFlight_approach_split (T : TrigModel) (r : TickRand) (ts : ℚ) (f f' : Flight)
    (h1 : (approachEntry r (progressStep ts f)).phase = Phase.approach)
    (h : updateFlight T r ts f = some f') :
    ∃ f2, approachAdvance T (ts - f.last_update) (approachEntry r (progressStep ts f)) = some f2
      ∧ f' = { f2 with last_update := ts } := by
  rw [updateFlight_approach_eq T r ts f h1] at h
  cases hadv : approachAdvance T (ts - f.last_update) (approachEntry r (progressStep ts f)) with
  | none => rw [hadv] at h; exact absurd h (by simp)
  | some f2 =>
    rw [hadv] at h
    exact ⟨f2, rfl, (Option.some.inj h).symm⟩

/-! Claim C1. -/

/-- Claim C1 counterexample: a cruise flight spawned with initial progress
0.85 and direction +1 is ticked twice, first at timestamp 5 (entering
approach phase at progress 103/120) and then at timestamp 305 (a 300-second
gap between generator calls, as happens after slow or failing feed polls).
After the second tick the flight is still in approach phase with progress
163/120, strictly greater than 1: progress does not remain within [0,1]
while the flight is in the approach phase. -/
theorem progress_leaves_unit_interval_in_approach :
    (runTicksAt trigZero tickRand3 fStart [5, 305]).map Flight.progress = some (163 / 120)
  ∧ (runTicksAt trigZero tickRand3 fStart [5, 305]).map Flight.phase = some Phase.approach
  ∧ ¬ ((163 : ℚ) / 120 ≤ 1) := by
  norm_num [runTicksAt, updateFlight, progressStep, approachEntry, approachAdvance,
    approachPosition, cruiseMove, altProfile, bezier_point, calculate_heading, mod360,
    fStart, flightBase, tickRand3, trigZero, Option.bind, approach_ne_cruise,
    cruise_ne_approach]

/-- Claim C1 as amended: after any tick of the flight-update step that ends
with the flight in cruise phase, progress lies within the unit interval;
while the flight remains in approach phase the update step keeps integrating
progress without clamping it (lines 184-188 run in every phase, while the
clamp at lines 277-287 only runs in the cruise branch), and progress is
reset to a boundary value on approach exit. -/
theorem cruise_tick_progress_in_unit (T : TrigModel) (r : TickRand) (ts : ℚ) (f f' : Flight)
    (h : updateFlight T r ts f = some f') (hc : f'.phase = Phase.cruise) :
    0 ≤ f'.progress ∧ f'.progress ≤ 1 := by
  cases hph : (approachEntry r (progressStep ts f)).phase with
  | cruise =>
    rw [updateFlight_cruise_eq T r ts f hph] at h
    have hf : f' = { cruiseMove T r ts (approachEntry r (progressStep ts f)) with
                     last_update := ts } := (Option.some.inj h).symm
    rw [hf]
    exact cruiseMove_progress_bounds T r ts (approachEntry r (progressStep ts f))
  | approach =>
    obtain ⟨f2, hadv, hf⟩ := updateFlight_approach_split T r ts f f' hph h
    cases hpat : (approachEntry r (progressStep ts f)).approach_pattern with
    | none =>
      exfalso
      unfold approachAdvance at hadv
      rw [hpat] at hadv
      exact absurd hadv (by simp)
    | some pat =>
      rcases approachAdvance_cases T _ _ f2 pat hpat hadv with ⟨_, _, h3⟩ | ⟨_, _, h3⟩ | ⟨_, h3⟩
      · rw [hf, h3]
        split_ifs
        · exact ⟨by norm_num, by norm_num⟩
        · exact ⟨by norm_num, by norm_num⟩
      · exfalso
        rw [hf, h3] at hc
        simp [approachPosition, hph] at hc
      · exfalso
        rw [hf, h3] at hc
        simp [approachPosition, hph] at hc

/-- Witness for the amended claim C1 at a concrete input: one dt = 5 tick
from a cruise flight at progress 0.3 ends in cruise phase, and the theorem
yields that its progress lies inside the unit interval. -/
theorem cruise_tick_progress_in_unit_witness :
    0 ≤ fCruise30'.progress ∧ fCruise30'.progress ≤ 1 :=
  cruise_tick_progress_in_unit trigZero tickRand3 5 fCruise30 fCruise30'
    (by norm_num [fCruise30', fCruise30, updateFlight, progressStep, approachEntry,
       approachAdvance, approachPosition, cruiseMove, altProfile, bezier_point,
       calculate_heading, mod360, flightBase, tickRand3, trigZero, approach_ne_cruise,
       cruise_ne_approach, Option.getD])
    (by norm_num [fCruise30', fCruise30, updateFlight, progressStep, approachEntry,
       approachAdvance, approachPosition, cruiseMove, altProfile, bezier_point,
       calculate_heading, mod360, flightBase, tickRand3, trigZero, approach_ne_cruise,
       cruise_ne_approach, Option.getD])

/-! Claim C2. -/

/-- Claim C2 evidence of the code bug at line 207: a return-leg cruise
flight (direction -1) at mid-route progress 0.5 transitions to approach on
the next tick even though its progress is not below 0.15, because the source
tests `progress < (1 - takeoff_threshold)`, i.e. `progress < 0.85`; the
loiter pattern is centered on the origin airport although the flight is at
mid-route. -/
theorem early_approach_entry_return_leg :
    (updateFlight trigZero tickRand3 0 fReturnHalf).map Flight.phase = some Phase.approach
  ∧ (updateFlight trigZero tickRand3 0 fReturnHalf).map Flight.progress = some (1 / 2)
  ∧ (updateFlight trigZero tickRand3 0 fReturnHalf).map
        (fun f => f.approach_pattern.map ApproachPattern.center)
      = some (some (404983 / 10000, -(8919 / 2500)))
  ∧ ¬ ((1 : ℚ) / 2 < 15 / 100) := by
  norm_num [fReturnHalf, updateFlight, progressStep, approachEntry, approachAdvance,
    approachPosition, cruiseMove, altProfile, bezier_point, calculate_heading, mod360,
    flightBase, tickRand3, trigZero, approach_ne_cruise, cruise_ne_approach]

/-! Claim C3. -/

/-- Claim C3: a tick of a flight in approach phase whose pattern still has
loops to fly exits the approach exactly when the loiter cycle completes
(`loiterProgress` reaching 1, lines 227-229) with the loop budget exhausted
(`current_loop` reaching `loops`, line 231); on exit the direction is
reversed, progress is reset to the boundary just exited, the phase returns
to cruise and the pattern is cleared (lines 233-245); otherwise the flight
stays in approach with the same loop budget and `current_loop` raised by
exactly one per completed cycle, still below `loops`. -/
theorem approach_exact_loops (T : TrigModel) (r : TickRand) (ts : ℚ) (f f' : Flight)
    (pat : ApproachPattern)
    (hph : f.phase = Phase.approach)
    (hpat : f.approach_pattern = some pat)
    (hlt : pat.current_loop < pat.loops)
    (h : updateFlight T r ts f = some f') :
    (f'.phase = Phase.cruise ↔
        1 ≤ pat.progress + 1 / 100 * (ts - f.last_update)
      ∧ pat.loops = pat.current_loop + 1)
  ∧ (f'.phase = Phase.cruise →
        f'.approach_pattern = none
      ∧ f'.direction = (if f.direction = 1 then -1 else 1)
      ∧ f'.progress = (if f.direction = 1 then 1 else 0))
  ∧ (∀ pat2, f'.approach_pattern = some pat2 →
        f'.phase = Phase.approach
      ∧ pat2.loops = pat.loops
      ∧ pat2.current_loop =
          (if 1 ≤ pat.progress + 1 / 100 * (ts - f.last_update)
           then pat.current_loop + 1 else pat.current_loop)
      ∧ pat2.current_loop < pat.loops) := by
  have hge : approachEntry r (progressStep ts f) = progressStep ts f :=
    approachEntry_of_approach r (progressStep ts f) hph
  have hph2 : (approachEntry r (progressStep ts f)).phase = Phase.approach := by
    rw [hge]; exact hph
  obtain ⟨f2, hadv, hf⟩ := updateFlight_approach_split T r ts f f' hph2 h
  rw [hge] at hadv
  rcases approachAdvance_cases T (ts - f.last_update) (progressStep ts f) f2 pat hpat hadv with
    ⟨hc1, hc2, h3⟩ | ⟨hc1, hc2, h3⟩ | ⟨hc1, h3⟩
  · have hcr : f'.phase = Phase.cruise := by
      rw [hf, h3]; split_ifs <;> rfl
    refine ⟨⟨fun _ => ⟨hc1, by omega⟩, fun _ => hcr⟩, fun _ => ?_, fun pat2 hp2 => ?_⟩
    · rw [hf, h3]
      simp only [progressStep_direction]
      split_ifs <;> exact ⟨rfl, rfl, rfl⟩
    · exfalso
      rw [hf, h3] at hp2
      revert hp2
      split_ifs <;> simp
  · have hap : f'.phase = Phase.approach := by rw [hf, h3]; exact hph
    have hpp : f'.approach_pattern = some (patAfterLoop pat) := by rw [hf, h3]; rfl
    refine ⟨⟨fun hcr => ?_, fun hcond => ?_⟩, fun hcr => ?_, fun pat2 hp2 => ?_⟩
    · rw [hap] at hcr; exact absurd hcr (by simp)
    · exact absurd hcond.2 (by omega)
    · rw [hap] at hcr; exact absurd hcr (by simp)
    · have hp : patAfterLoop pat = pat2 := by
        rw [hpp] at hp2; exact Option.some.inj hp2
      subst hp
      refine ⟨hap, rfl, ?_, ?_⟩
      · rw [if_pos hc1]; rfl
      · show pat.current_loop + 1 < pat.loops
        omega
  · have hap : f'.phase = Phase.approach := by rw [hf, h3]; exact hph
    have hpp : f'.approach_pattern = some (patAfterStep (ts - f.last_update) pat) := by
      rw [hf, h3]; rfl
    refine ⟨⟨fun hcr => ?_, fun hcond => ?_⟩, fun hcr => ?_, fun pat2 hp2 => ?_⟩
    · rw [hap] at hcr; exact absurd hcr (by simp)
    · exact absurd hcond.1 hc1
    · rw [hap] at hcr; exact absurd hcr (by simp)
    · have hp : patAfterStep (ts - f.last_update) pat = pat2 := by
        rw [hpp] at hp2; exact Option.some.inj hp2
      subst hp
      refine ⟨hap, rfl, ?_, ?_⟩
      · rw [if_neg hc1]; rfl
      · show pat.current_loop < pat.loops
        omega

/-- Witness for claim C3 at a concrete input: the exit tick of a
single-loop approach (pattern `patExit`, dt = 60) clears the pattern,
reverses the direction from +1 to -1 and resets progress to 1. -/
theorem approach_exact_loops_witness :
    fApproachExit'.approach_pattern = none ∧ fApproachExit'.direction = -1
  ∧ fApproachExit'.progress = 1 := by
  have h := approach_exact_loops trigZero tickRand3 60 fApproachExit fApproachExit' patExit
    rfl rfl (by norm_num [patExit])
    (by norm_num [fApproachExit', fApproachExit, patExit, updateFlight, progressStep,
       approachEntry, approachAdvance, approachPosition, cruiseMove, altProfile,
       bezier_point, calculate_heading, mod360, flightBase, tickRand3, trigZero,
       approach_ne_cruise, cruise_ne_approach, Option.getD])
  have hcr : fApproachExit'.phase = Phase.cruise := by
    norm_num [fApproachExit', fApproachExit, patExit, updateFlight, progressStep,
      approachEntry, approachAdvance, approachPosition, cruiseMove, altProfile,
      bezier_point, calculate_heading, mod360, flightBase, tickRand3, trigZero,
      approach_ne_cruise, cruise_ne_approach, Option.getD]
  obtain ⟨-, h2, -⟩ := h
  obtain ⟨hp, hd, hpr⟩ := h2 hcr
  refine ⟨hp, ?_, ?_⟩
  · rw [hd]; norm_num [fApproachExit, flightBase]
  · rw [hpr]; norm_num [fApproachExit, flightBase]

/-! Claim C4. -/

/-- Claim C4 counterexample for the Scenario A value: spawning a flight at
its origin (progress 0, direction +1, duration 900 s) and advancing one tick
with dt = 450 yields progress (450/900)·1.5 = 0.75, still in cruise phase;
the claimed value 0.75·speedMultiplier = 0.75·1.5 = 1.125 is wrong, and not
approximately equal to the actual progress under any reasonable tolerance. -/
theorem scenarioA_progress_value :
    (updateFlight trigZero tickRand3 450 fScenarioA).map Flight.progress = some (3 / 4)
  ∧ (updateFlight trigZero tickRand3 450 fScenarioA).map Flight.phase = some Phase.cruise
  ∧ ¬ ((3 : ℚ) / 4 = 3 / 4 * (3 / 2))
  ∧ ¬ (|(3 : ℚ) / 4 - 3 / 4 * (3 / 2)| ≤ 1 / 10) := by
  norm_num [fScenarioA, updateFlight, progressStep, approachEntry, approachAdvance,
    approachPosition, cruiseMove, altProfile, bezier_point, calculate_heading, mod360,
    flightBase, tickRand3, trigZero, approach_ne_cruise, cruise_ne_approach, abs_sub_comm,
    abs_of_pos]

/-- Claim C4 as amended: a cruise tick integrates progress by exactly
`(dt / flightDuration) * direction * 1.5` (lines 184-188); when the
integrated value stays inside the no-transition band for the flight's
direction (in (0, 0.85] for direction +1, in [0.85, 1) for direction -1,
given the entry condition actually implemented at line 207), the tick ends
in cruise phase with exactly that progress.  In particular Scenario A ends
with progress (450/900)·1.5 = 0.75 = 0.5·speedMultiplier, still in cruise
since 0.75 is at most 0.85. -/
theorem cruise_progress_update (T : TrigModel) (r : TickRand) (ts : ℚ) (f f' : Flight)
    (hph : f.phase = Phase.cruise)
    (h : updateFlight T r ts f = some f') :
    (f.direction = 1 → 0 < (progressStep ts f).progress →
       (progressStep ts f).progress ≤ 85 / 100 →
       f'.phase = Phase.cruise
     ∧ f'.progress
         = f.progress + (ts - f.last_update) / f.flight_duration * (f.direction : ℚ) * (3 / 2))
  ∧ (f.direction = -1 → 85 / 100 ≤ (progressStep ts f).progress →
       (progressStep ts f).progress < 1 →
       f'.phase = Phase.cruise
     ∧ f'.progress
         = f.progress + (ts - f.last_update) / f.flight_duration * (f.direction : ℚ) * (3 / 2)) := by
  constructor
  · intro hd hp0 hp85
    have hge : approachEntry r (progressStep ts f) = progressStep ts f := by
      refine approachEntry_no_trigger r (progressStep ts f) ?_ ?_
      · exact fun hx => absurd hx.2.1 (by exact not_lt.mpr hp85)
      · rw [progressStep_direction]
        exact fun hx => by rw [hd] at hx; exact absurd hx.1 (by norm_num)
    have hphc : (approachEntry r (progressStep ts f)).phase = Phase.cruise := by
      rw [hge, progressStep_phase]; exact hph
    rw [updateFlight_cruise_eq T r ts f hphc] at h
    have hf : f' = { cruiseMove T r ts (approachEntry r (progressStep ts f)) with
                     last_update := ts } := (Option.some.inj h).symm
    have hnc := cruiseMove_no_clamp T r ts (progressStep ts f)
      (by rw [not_le]; exact lt_of_le_of_lt hp85 (by norm_num)) (by rwa [not_le])
    constructor
    · rw [hf]
      show (cruiseMove T r ts (approachEntry r (progressStep ts f))).phase = Phase.cruise
      rw [hge, hnc.2.1, progressStep_phase]
      exact hph
    · rw [hf]
      show (cruiseMove T r ts (approachEntry r (progressStep ts f))).progress
         = f.progress + (ts - f.last_update) / f.flight_duration * (f.direction : ℚ) * (3 / 2)
      rw [hge, hnc.1]
      rfl
  · intro hd hp85 hp1
    have hge : approachEntry r (progressStep ts f) = progressStep ts f := by
      refine approachEntry_no_trigger r (progressStep ts f) ?_ ?_
      · rw [progressStep_direction]
        exact fun hx => by rw [hd] at hx; exact absurd hx.1 (by norm_num)
      · exact fun hx => absurd hx.2.1 (by rw [not_lt]; exact le_trans (by norm_num) hp85)
    have hphc : (approachEntry r (progressStep ts f)).phase = Phase.cruise := by
      rw [hge, progressStep_phase]; exact hph
    rw [updateFlight_cruise_eq T r ts f hphc] at h
    have hf : f' = { cruiseMove T r ts (approachEntry r (progressStep ts f)) with
                     last_update := ts } := (Option.some.inj h).symm
    have hnc := cruiseMove_no_clamp T r ts (progressStep ts f)
      (by rwa [not_le]) (by rw [not_le]; exact lt_of_lt_of_le (by norm_num) hp85)
    constructor
    · rw [hf]
      show (cruiseMove T r ts (approachEntry r (progressStep ts f))).phase = Phase.cruise
      rw [hge, hnc.2.1, progressStep_phase]
      exact hph
    · rw [hf]
      show (cruiseMove T r ts (approachEntry r (progressStep ts f))).progress
         = f.progress + (ts - f.last_update) / f.flight_duration * (f.direction : ℚ) * (3 / 2)
      rw [hge, hnc.1]
      rfl

/-- Witness for the amended claim C4 at the Scenario A input: direction +1,
dt = 450, duration 900, ending in cruise with progress exactly 0.75. -/
theorem cruise_progress_update_witness :
    fScenarioA'.phase = Phase.cruise ∧ fScenarioA'.progress = 3 / 4 := by
  have h := cruise_progress_update trigZero tickRand3 450 fScenarioA fScenarioA' rfl
    (by norm_num [fScenarioA', fScenarioA, updateFlight, progressStep, approachEntry,
       approachAdvance, approachPosition, cruiseMove, altProfile, bezier_point,
       calculate_heading, mod360, flightBase, tickRand3, trigZero, approach_ne_cruise,
       cruise_ne_approach, Option.getD])
  have h1 := h.1 rfl
    (by norm_num [progressStep, fScenarioA, flightBase])
    (by norm_num [progressStep, fScenarioA, flightBase])
  refine ⟨h1.1, ?_⟩
  rw [h1.2]
  norm_num [fScenarioA, flightBase]

/-! Claim C5. -/

/-- Claim C5: pruning at time `now` removes exactly the window entries with
timestamp below `now - WINDOW` (lines 460-465, retention 1800 s); the
snapshot taken immediately afterwards (line 575) contains no frame older
than the horizon; and Scenario C holds: with frames at ts 100 and ts 2000
and now = 2000, only the ts 2000 frame remains. -/
theorem prune_retention (now : ℤ) (w : Window) (ts : ℤ) (fr : List FlightRecord) :
    ((ts, fr) ∈ prune now w ↔ (ts, fr) ∈ w ∧ ¬ ts < now - WINDOW)
  ∧ (∀ p ∈ ws_snapshot (prune now w), now - WINDOW ≤ p.1)
  ∧ prune 2000 [(100, []), (2000, [])] = [(2000, [])] := by
  refine ⟨?_, ?_, by decide⟩
  · unfold prune
    rw [List.mem_filter]
    simp
  · intro p hp
    unfold ws_snapshot at hp
    rw [List.mem_mergeSort] at hp
    unfold prune at hp
    rw [List.mem_filter] at hp
    have h2 := hp.2
    simp only [decide_eq_true_eq] at h2
    omega

/-- Witness for claim C5 at the Scenario C input: the ts 2000 frame is kept
by the prune at now = 2000. -/
theorem prune_retention_witness :
    ((2000 : ℤ), ([] : List FlightRecord)) ∈ prune 2000 [(100, []), (2000, [])] :=
  (prune_retention 2000 [(100, []), (2000, [])] 2000 []).1.mpr ⟨by decide, by decide⟩

/-! Claim C7. -/

/-- Claim C7: once the poll loop is in demo mode it stays in demo mode for
every subsequent tick, and every subsequent tick's frame is produced by the
synthetic generator (lines 472-474 skip the live query entirely and lines
542-548 write the synthetic frame; nothing ever resets `demo_mode`). -/
theorem demo_mode_permanent (s : PollState) (es : List PollEvent)
    (h : s.demo_mode = true) :
    (pollRun s es).1.demo_mode = true
  ∧ ∀ w ∈ (pollRun s es).2, w = some FrameWrite.synthetic := by
  induction es generalizing s with
  | nil => exact ⟨h, by intro w hw; simp [pollRun] at hw⟩
  | cons e es ih =>
    have hstep : pollTick s e = (s, some FrameWrite.synthetic) := by
      unfold pollTick
      rw [if_pos h]
    show ((pollRun (pollTick s e).1 es).1.demo_mode = true ∧ _)
    rw [hstep]
    obtain ⟨h1, h2⟩ := ih s h
    refine ⟨h1, ?_⟩
    intro w hw
    rw [show (pollRun s (e :: es)).2
          = (pollTick s e).2 :: (pollRun (pollTick s e).1 es).2 from rfl, hstep] at hw
    rcases List.mem_cons.mp hw with hw1 | hw2
    · exact hw1
    · exact h2 w hw2

/-- Witness for claim C7: a demo-mode state stays in demo mode across a
network error followed by a successful response. -/
theorem demo_mode_permanent_witness :
    (pollRun { api_failure_count := 0, demo_mode := true }
        [PollEvent.netError, PollEvent.resp 200 []]).1.demo_mode = true :=
  (demo_mode_permanent { api_failure_count := 0, demo_mode := true }
    [PollEvent.netError, PollEvent.resp 200 []] rfl).1

/-! Claim C8. -/

/-- Claim C8 counterexample: a non-2xx response other than 429 (e.g. HTTP
500) skips the frame write but does NOT increment the consecutive-failure
counter: only 429 responses (line 487) and raised exceptions (line 553) are
counted. -/
theorem non2xx_not_counted :
    (pollTick { api_failure_count := 0, demo_mode := false }
        (PollEvent.resp 500 [])).1.api_failure_count = 0
  ∧ (pollTick { api_failure_count := 0, demo_mode := false }
        (PollEvent.resp 500 [])).2 = none
  ∧ ¬ ((pollTick { api_failure_count := 0, demo_mode := false }
        (PollEvent.resp 500 [])).1.api_failure_count = 0 + 1) := by
  decide

/-- Claim C8 as amended: in live mode a raised network error or a 429
response increments the consecutive-failure counter (switching to demo mode
when it reaches 3), any other non-200 status leaves the counter and mode
unchanged and writes no frame, no non-200 outcome ever writes a live frame,
and a 200 response resets the counter to 0. -/
theorem feed_failure_accounting (s : PollState) (status : ℕ) (states : List ApiRow)
    (h : s.demo_mode = false) :
    ((pollTick s PollEvent.netError).1.api_failure_count = s.api_failure_count + 1
      ∧ (pollTick s PollEvent.netError).2 = none
      ∧ ((pollTick s PollEvent.netError).1.demo_mode = true ↔ 3 ≤ s.api_failure_count + 1))
  ∧ (status = 429 →
      (pollTick s (PollEvent.resp status states)).1.api_failure_count
        = s.api_failure_count + 1)
  ∧ (status = 200 →
      (pollTick s (PollEvent.resp status states)).1.api_failure_count = 0
      ∧ (pollTick s (PollEvent.resp status states)).1.demo_mode = false)
  ∧ (status ≠ 200 → status ≠ 429 →
      (pollTick s (PollEvent.resp status states)).1.api_failure_count = s.api_failure_count
      ∧ (pollTick s (PollEvent.resp status states)).2 = none
      ∧ (pollTick s (PollEvent.resp status states)).1.demo_mode = false)
  ∧ (status ≠ 200 →
      ∀ recs, (pollTick s (PollEvent.resp status states)).2 ≠ some (FrameWrite.live recs)) := by
  refine ⟨?_, ?_, ?_, ?_, ?_⟩
  · refine ⟨?_, ?_, ?_⟩ <;> simp [pollTick, h]
  · intro h429
    subst h429
    by_cases h3 : 3 ≤ s.api_failure_count + 1 <;> simp [pollTick, h, h3]
  · intro h200
    subst h200
    simp [pollTick, h]
  · intro hn200 hn429
    refine ⟨?_, ?_, ?_⟩ <;> simp [pollTick, h, hn200, hn429]
  · intro hn200 recs
    by_cases h429 : status = 429
    · subst h429
      by_cases h3 : 3 ≤ s.api_failure_count + 1 <;> simp [pollTick, h, h3]
    · simp [pollTick, h, hn200, h429]

/-- Witness for the amended claim C8 at a concrete input: a 503 response in
live mode with one prior failure leaves the counter at 1, writes nothing and
stays in live mode. -/
theorem feed_failure_accounting_witness :
    (pollTick { api_failure_count := 1, demo_mode := false }
        (PollEvent.resp 503 [])).1.api_failure_count = 1
  ∧ (pollTick { api_failure_count := 1, demo_mode := false }
        (PollEvent.resp 503 [])).2 = none := by
  have h := (feed_failure_accounting { api_failure_count := 1, demo_mode := false }
    503 [] rfl).2.2.2.1 (by norm_num) (by norm_num)
  exact ⟨h.1, h.2.1⟩

/-! Claim C9. -/

/-- Claim C9: a live API row is dropped exactly when its latitude or
longitude is absent (lines 516-517); every row with both coordinates is kept
in the frame, with an absent or zero track, barometric altitude or velocity
stored as 0 (lines 528-530); and the frame consists exactly of the processed
rows. -/
theorem live_row_filtering (row : ApiRow) :
    (processRow row = none ↔ (row.latitude = none ∨ row.longitude = none))
  ∧ (∀ la lo, row.latitude = some la → row.longitude = some lo →
       ∃ rec, processRow row = some rec
         ∧ rec.icao = row.icao24 ∧ rec.lat = la ∧ rec.lon = lo
         ∧ rec.track = row.track.getD 0
         ∧ rec.alt = row.baro_altitude.getD 0
         ∧ rec.speed = row.velocity.getD 0)
  ∧ (∀ (rows : List ApiRow) (rec : FlightRecord),
       rec ∈ processStates rows ↔ ∃ q ∈ rows, processRow q = some rec) := by
  refine ⟨?_, ?_, ?_⟩
  · unfold processRow
    split_ifs with hc
    · simpa using hc
    · simp [hc]
  · intro la lo hla hlo
    have hcond : ¬ (row.latitude = none ∨ row.longitude = none) := by
      rw [hla, hlo]; simp
    unfold processRow
    rw [if_neg hcond]
    refine ⟨_, rfl, rfl, ?_, ?_, ?_, ?_, ?_⟩
    · show row.latitude.getD 0 = la
      rw [hla]; rfl
    · show row.longitude.getD 0 = lo
      rw [hlo]; rfl
    · show (match row.track with
            | some t => if t = 0 then 0 else t
            | none => 0) = row.track.getD 0
      cases row.track with
      | none => rfl
      | some t =>
        dsimp only [Option.getD]
        split_ifs with h0
        · rw [h0]
        · rfl
    · show (match row.baro_altitude with
            | some a => if a = 0 then 0 else a
            | none => 0) = row.baro_altitude.getD 0
      cases row.baro_altitude with
      | none => rfl
      | some a =>
        dsimp only [Option.getD]
        split_ifs with h0
        · rw [h0]
        · rfl
    · show (match row.velocity with
            | some v => if v = 0 then 0 else v
            | none => 0) = row.velocity.getD 0
      cases row.velocity with
      | none => rfl
      | some v =>
        dsimp only [Option.getD]
        split_ifs with h0
        · rw [h0]
        · rfl
  · intro rows rec
    simp [processStates, List.mem_filterMap]

/-- Witness for claim C9 at a concrete input: a row with coordinates but no
track, zero barometric altitude and velocity 220 is kept, with track and
altitude stored as 0. -/
theorem live_row_filtering_witness :
    ∃ rec, processRow rowPartial = some rec
      ∧ rec.track = 0 ∧ rec.alt = 0 ∧ rec.speed = 220 := by
  obtain ⟨rec, h1, -, -, -, h4, h5, h6⟩ :=
    (live_row_filtering rowPartial).2.1 50 4 rfl rfl
  exact ⟨rec, h1, by rw [h4]; rfl, by rw [h5]; rfl, by rw [h6]; rfl⟩

/-! Claim C6. -/

/-- Claim C6 counterexample: at 17 percent progress -- inside the 15-85
percent band where the claim requires the profile factor to hold at 1 within
5 percent -- the cruise-branch profile factor is 0.85 (the source ramps over
the first 20 percent with slope 5, lines 323-325) and the resulting altitude
is 8500, far outside the claimed 9500..10500 band; there is also no jitter
term in the altitude computation. -/
theorem altitude_ramp_at_17_percent :
    (updateFlight trigZero tickRand3 0 fRamp17).map Flight.alt = some 8500
  ∧ altProfile 1 (17 / 100) = 85 / 100
  ∧ ((15 : ℚ) / 100 < 17 / 100 ∧ (17 : ℚ) / 100 < 85 / 100)
  ∧ ¬ (1 - 5 / 100 ≤ altProfile 1 (17 / 100)) := by
  norm_num [fRamp17, updateFlight, progressStep, approachEntry, approachAdvance,
    approachPosition, cruiseMove, altProfile, bezier_point, calculate_heading, mod360,
    flightBase, tickRand3, trigZero, approach_ne_cruise, cruise_ne_approach]

/-- Claim C6 as amended: the live cruise altitude/speed profile uses 20
percent ramps, not 15 percent, and no jitter: for direction +1 the factor is
5·progress below 0.2, exactly 1 on [0.2, 0.8] and 5·(1-progress) above 0.8
(for direction -1 the source's branch near the turnaround point is
5·(progress-0.8) above 0.8, descending toward 0.8, exactly 1 on [0.2, 0.8]
and 5·progress below 0.2); a cruise tick that triggers no phase transition
stores altitude 10000 times and speed 250 times the factor of its final
direction and progress. -/
theorem altitude_profile_shape (T : TrigModel) (r : TickRand) (ts : ℚ) (f f' : Flight)
    (d : ℤ) (p : ℚ)
    (hph : f.phase = Phase.cruise)
    (h : updateFlight T r ts f = some f')
    (hnc1 : ¬ (f.direction = 1 ∧ (progressStep ts f).progress > 85 / 100))
    (hnc2 : ¬ (f.direction = -1 ∧ (progressStep ts f).progress < 1 - 15 / 100)) :
    ((d = 1 →
        (p < 2 / 10 → altProfile d p = p * 5)
      ∧ (2 / 10 ≤ p → p ≤ 8 / 10 → altProfile d p = 1)
      ∧ (8 / 10 < p → altProfile d p = (1 - p) * 5))
   ∧ (d ≠ 1 →
        (8 / 10 < p → altProfile d p = (p - 8 / 10) * 5)
      ∧ (2 / 10 ≤ p → p ≤ 8 / 10 → altProfile d p = 1)
      ∧ (p < 2 / 10 → altProfile d p = p * 5)))
  ∧ f'.alt = 10000 * altProfile f'.direction f'.progress
  ∧ f'.speed = 250 * altProfile f'.direction f'.progress := by
  have hge : approachEntry r (progressStep ts f) = progressStep ts f := by
    refine approachEntry_no_trigger r (progressStep ts f) ?_ ?_
    · rw [progressStep_direction]
      exact fun hx => hnc1 ⟨hx.1, hx.2.1⟩
    · rw [progressStep_direction]
      exact fun hx => hnc2 ⟨hx.1, hx.2.1⟩
  have hphc : (approachEntry r (progressStep ts f)).phase = Phase.cruise := by
    rw [hge, progressStep_phase]; exact hph
  rw [updateFlight_cruise_eq T r ts f hphc] at h
  have hf : f' = { cruiseMove T r ts (approachEntry r (progressStep ts f)) with
                   last_update := ts } := (Option.some.inj h).symm
  refine ⟨⟨?_, ?_⟩, ?_, ?_⟩
  · intro hd
    subst hd
    refine ⟨?_, ?_, ?_⟩
    · intro h1
      unfold altProfile
      rw [if_pos rfl, if_pos h1]
    · intro h1 h2
      unfold altProfile
      rw [if_pos rfl, if_neg (not_lt.mpr h1), if_neg (not_lt.mpr h2)]
    · intro h1
      unfold altProfile
      rw [if_pos rfl, if_neg (not_lt.mpr (by linarith)), if_pos h1]
  · intro hd
    refine ⟨?_, ?_, ?_⟩
    · intro h1
      unfold altProfile
      rw [if_neg hd, if_pos h1]
    · intro h1 h2
      unfold altProfile
      rw [if_neg hd, if_neg (not_lt.mpr h2), if_neg (not_lt.mpr h1)]
    · intro h1
      unfold altProfile
      rw [if_neg hd, if_neg (not_lt.mpr (by linarith)), if_pos h1]
  · rw [hf]
    exact (cruiseMove_alt_speed T r ts (approachEntry r (progressStep ts f))).1
  · rw [hf]
    exact (cruiseMove_alt_speed T r ts (approachEntry r (progressStep ts f))).2

/-- Witness for the amended claim C6 at a concrete input: at mid-route
(progress 0.5, direction +1) the profile factor is exactly 1 and a dt = 0
tick stores altitude 10000 times the factor of the resulting state. -/
theorem altitude_profile_shape_witness :
    altProfile 1 (1 / 2) = 1
  ∧ fMid'.alt = 10000 * altProfile fMid'.direction fMid'.progress := by
  have h := altitude_profile_shape trigZero tickRand3 0 fMid fMid' 1 (1 / 2) rfl
    (by norm_num [fMid', fMid, updateFlight, progressStep, approachEntry,
       approachAdvance, approachPosition, cruiseMove, altProfile, bezier_point,
       calculate_heading, mod360, flightBase, tickRand3, trigZero, approach_ne_cruise,
       cruise_ne_approach, Option.getD])
    (by norm_num [progressStep, fMid, flightBase])
    (by norm_num [fMid, flightBase])
  exact ⟨(h.1.1 rfl).2.1 (by norm_num) (by norm_num), h.2.1⟩

/-! Claim C10. -/

/-- Claim C10: the synthetic generator never reads the configured bounding
box -- for any two bounding-box values it produces identical output from the
same random draws, registry and timestamp -- and its hard-coded airport
table contains Madrid at latitude 40.4983, south of the configured
`latmin = 42.0`; concretely, a generator tick over a registry holding one
flight at its Madrid origin emits a frame whose only position has latitude
40.4983 < 42. -/
theorem generator_ignores_bbox :
    (∀ (b1 b2 : ℚ × ℚ × ℚ × ℚ) (T : TrigModel) (g : GenRand) (ts : ℚ)
        (reg : List Flight),
        generate_demo_flights b1 T g ts reg = generate_demo_flights b2 T g ts reg)
  ∧ (⟨"MAD", 40.4983, -3.5676⟩ : Airport) ∈ airports
  ∧ (40.4983 : ℚ) < BBOX.2.1
  ∧ (generate_demo_flights BBOX trigZero genRandMAD 0 [fScenarioA]).map
        (fun out => out.1.map FlightRecord.lat) = some [404983 / 10000]
  ∧ (404983 : ℚ) / 10000 < BBOX.2.1 := by
  refine ⟨fun b1 b2 T g ts reg => rfl, ?_, ?_, ?_, ?_⟩
  · simp [airports]
  · norm_num [BBOX]
  · norm_num [generate_demo_flights, genRandMAD, updateAll, churnStep, Flight.toRecord,
      fScenarioA, updateFlight, progressStep, approachEntry, approachAdvance,
      approachPosition, cruiseMove, altProfile, bezier_point, calculate_heading, mod360,
      flightBase, tickRand3, trigZero, approach_ne_cruise, cruise_ne_approach]
  · norm_num [BBOX]

end Crawler
